import Mathlib

/-!
Shallow embedding of the percona-agent instance subsystem:

* `Repo` (src/instance/repo.go) — the durable instance registry
  (InstanceStore): `add`, `get` (with remote fetch-and-cache fallback),
  `Remove`, id validation.
* `Monitor` (src/unnamed/part_002, package monitor) — the MySQL restart
  monitor (RestartMonitor): `Add`, `Remove`, `Check` over a watch table of
  per-DSN subscriber sets.
* `Manager.Handle` (src/unnamed/part_004, package instance) — the command
  coordinator dispatching Add / Remove / GetInfo envelopes.

Go maps are embedded as association lists keyed by strings; Go channels as
numeric identifiers handed out by a fresh-name counter; file-system and
network effects as explicit state plus environment oracles.  A Go
nil-pointer dereference (a panic) is represented by an absent (`none`)
reply in `HandleResult`.
-/

set_option autoImplicit false

namespace PerconaAgent

/-! ## Association-list primitives (embedding of Go `map[string]V`) -/

/-- First value bound to key `k`, mirroring a Go map read `m[k]` that hits. -/
def alookup {α : Type} (k : String) : List (String × α) → Option α
  | [] => none
  | (k', v) :: rest => if k' = k then some v else alookup k rest

/-- Remove the first binding of key `k` (Go `delete(m, k)` on a
map whose keys are unique). -/
def aerase {α : Type} (k : String) : List (String × α) → List (String × α)
  | [] => []
  | (k', v) :: rest => if k' = k then rest else (k', v) :: aerase k rest

/-- Go map write `m[k] = v`: any previous binding of `k` is replaced. -/
def ainsert {α : Type} (k : String) (v : α) (l : List (String × α)) :
    List (String × α) :=
  (k, v) :: aerase k l

/-- Rewrite the first binding of key `k` through `f`, mirroring a Go map
update of an existing entry. -/
def aupdate {α : Type} (k : String) (f : α → α) : List (String × α) → List (String × α)
  | [] => []
  | (k', v) :: rest => if k' = k then (k', f v) :: rest else (k', v) :: aupdate k f rest

@[simp] theorem alookup_nil {α : Type} (k : String) :
    alookup (α := α) k [] = none := rfl

@[simp] theorem alookup_cons {α : Type} (k a : String) (b : α) (l : List (String × α)) :
    alookup k ((a, b) :: l) = if a = k then some b else alookup k l := rfl

@[simp] theorem aerase_nil {α : Type} (k : String) :
    aerase (α := α) k [] = [] := rfl

@[simp] theorem aerase_cons {α : Type} (k a : String) (b : α) (l : List (String × α)) :
    aerase k ((a, b) :: l) = if a = k then l else (a, b) :: aerase k l := rfl

@[simp] theorem aupdate_nil {α : Type} (k : String) (f : α → α) :
    aupdate k f [] = [] := rfl

@[simp] theorem aupdate_cons {α : Type} (k a : String) (f : α → α) (b : α)
    (l : List (String × α)) :
    aupdate k f ((a, b) :: l) =
      if a = k then (a, f b) :: l else (a, b) :: aupdate k f l := rfl

theorem alookup_none_of_not_mem_keys {α : Type} (k : String) (l : List (String × α))
    (h : k ∉ l.map Prod.fst) : alookup k l = none := by
  induction l with
  | nil => rfl
  | cons p rest ih =>
    obtain ⟨a, b⟩ := p
    simp only [List.map_cons, List.mem_cons] at h
    push_neg at h
    rw [alookup_cons, if_neg (fun hk : a = k => h.1 hk.symm)]
    exact ih h.2

theorem mem_keys_of_alookup {α : Type} (k : String) (l : List (String × α)) (v : α)
    (h : alookup k l = some v) : k ∈ l.map Prod.fst := by
  induction l with
  | nil => simp [alookup] at h
  | cons p rest ih =>
    obtain ⟨a, b⟩ := p
    by_cases hak : a = k
    · simp [hak]
    · rw [alookup_cons, if_neg hak] at h
      simp [ih h]

theorem alookup_isSome_of_mem_keys {α : Type} (k : String) (l : List (String × α))
    (h : k ∈ l.map Prod.fst) : (alookup k l).isSome := by
  induction l with
  | nil => simp at h
  | cons p rest ih =>
    obtain ⟨a, b⟩ := p
    by_cases hak : a = k
    · simp [hak]
    · simp only [List.map_cons, List.mem_cons] at h
      rcases h with h | h
      · exact absurd h.symm hak
      · simp [hak, ih h]

theorem alookup_aerase_ne {α : Type} (k k' : String) (l : List (String × α))
    (h : k' ≠ k) : alookup k' (aerase k l) = alookup k' l := by
  induction l with
  | nil => rfl
  | cons p rest ih =>
    obtain ⟨a, b⟩ := p
    by_cases hak : a = k
    · subst hak
      rw [aerase_cons, if_pos rfl, alookup_cons, if_neg (Ne.symm h)]
    · rw [aerase_cons, if_neg hak, alookup_cons, alookup_cons, ih]

theorem alookup_aerase_self {α : Type} (k : String) (l : List (String × α))
    (hnd : (l.map Prod.fst).Nodup) : alookup k (aerase k l) = none := by
  induction l with
  | nil => rfl
  | cons p rest ih =>
    obtain ⟨a, b⟩ := p
    simp only [List.map_cons, List.nodup_cons] at hnd
    by_cases hak : a = k
    · subst hak
      rw [aerase_cons, if_pos rfl]
      exact alookup_none_of_not_mem_keys a rest hnd.1
    · rw [aerase_cons, if_neg hak, alookup_cons, if_neg hak]
      exact ih hnd.2

@[simp] theorem alookup_ainsert_self {α : Type} (k : String) (v : α)
    (l : List (String × α)) : alookup k (ainsert k v l) = some v := by
  rw [ainsert, alookup_cons, if_pos rfl]

theorem alookup_ainsert_ne {α : Type} (k k' : String) (v : α) (l : List (String × α))
    (h : k' ≠ k) : alookup k' (ainsert k v l) = alookup k' l := by
  rw [ainsert, alookup_cons, if_neg (Ne.symm h)]
  exact alookup_aerase_ne k k' l h

theorem alookup_aupdate_ne {α : Type} (k k' : String) (f : α → α) (l : List (String × α))
    (h : k' ≠ k) : alookup k' (aupdate k f l) = alookup k' l := by
  induction l with
  | nil => rfl
  | cons p rest ih =>
    obtain ⟨a, b⟩ := p
    by_cases hak : a = k
    · subst hak
      rw [aupdate_cons, if_pos rfl, alookup_cons, alookup_cons,
        if_neg (Ne.symm h), if_neg (Ne.symm h)]
    · rw [aupdate_cons, if_neg hak, alookup_cons, alookup_cons, ih]

theorem alookup_aupdate_self {α : Type} (k : String) (f : α → α) (v : α)
    (l : List (String × α)) (h : alookup k l = some v) :
    alookup k (aupdate k f l) = some (f v) := by
  induction l with
  | nil => simp [alookup] at h
  | cons p rest ih =>
    obtain ⟨a, b⟩ := p
    by_cases hak : a = k
    · subst hak
      rw [alookup_cons, if_pos rfl] at h
      rw [aupdate_cons, if_pos rfl, alookup_cons, if_pos rfl, Option.some.inj h]
    · rw [alookup_cons, if_neg hak] at h
      rw [aupdate_cons, if_neg hak, alookup_cons, if_neg hak]
      exact ih h

theorem aupdate_eq_self {α : Type} (k : String) (f : α → α) (v : α)
    (l : List (String × α)) (hl : alookup k l = some v) (hf : f v = v) :
    aupdate k f l = l := by
  induction l with
  | nil => rfl
  | cons p rest ih =>
    obtain ⟨a, b⟩ := p
    by_cases hak : a = k
    · subst hak
      rw [alookup_cons, if_pos rfl] at hl
      rw [aupdate_cons, if_pos rfl, Option.some.inj hl, hf]
    · rw [alookup_cons, if_neg hak] at hl
      rw [aupdate_cons, if_neg hak, ih hl]

theorem keys_aupdate {α : Type} (k : String) (f : α → α) (l : List (String × α)) :
    (aupdate k f l).map Prod.fst = l.map Prod.fst := by
  induction l with
  | nil => rfl
  | cons p rest ih =>
    obtain ⟨a, b⟩ := p
    by_cases hak : a = k
    · rw [aupdate_cons, if_pos hak, List.map_cons, List.map_cons]
    · rw [aupdate_cons, if_neg hak, List.map_cons, List.map_cons, ih]

theorem keys_aerase_sublist {α : Type} (k : String) (l : List (String × α)) :
    ((aerase k l).map Prod.fst).Sublist (l.map Prod.fst) := by
  induction l with
  | nil => simp
  | cons p rest ih =>
    obtain ⟨a, b⟩ := p
    by_cases hak : a = k
    · rw [aerase_cons, if_pos hak, List.map_cons]
      exact List.sublist_cons_self _ _
    · rw [aerase_cons, if_neg hak, List.map_cons, List.map_cons]
      exact ih.cons₂ a

/-! ## Data model: instance records (`proto.InstanceConfig`) -/

/-- Embedding of `proto.InstanceConfig`: identity `UUID`, kind
discriminators `Type`/`Prefix`, and the string-keyed `Properties` map
(connection string, probed metadata). -/
structure InstanceConfig where
  UUID : String
  «Type» : String
  Prefix : String
  Properties : List (String × String)
  deriving DecidableEq, Repr

/-- `isMySQLConfig` (src/instance/repo.go:230): database-type test. -/
def isMySQLConfig (inst : InstanceConfig) : Bool :=
  inst.«Type» == "MySQL" && inst.Prefix == "mysql"

/-- Go map read with zero value: `it.Properties["dsn"]` yields `""` when
the key is absent. -/
def propGet (props : List (String × String)) (k : String) : String :=
  (alookup k props).getD ""

/-! ## Repo: typed errors, environment, state -/

/-- The registry-layer error kinds of src/instance/repo.go: the typed
`pct` errors plus the wrapped `fmt.Errorf` failures, each carrying what
the Go message interpolates. -/
inductive RepoErr where
  /-- `pct.DuplicateInstanceError{Id: ...}` -/
  | duplicate (id : String)
  /-- `pct.InvalidInstanceError{Id: ...}` -/
  | invalidId (id : String)
  /-- `pct.UnknownInstanceError{Id: ...}` -/
  | unknown (id : String)
  /-- `pct.Basedir.WriteConfig` failure propagated by `add` -/
  | writeFailed (id : String)
  /-- transport error from `api.Get` (`Failed to get ... instance`) -/
  | fetchTransport (id : String)
  /-- non-200 response (`returned code %d, expected 200`) -/
  | fetchBadCode (id : String) (code : Nat)
  /-- 200 response with nil data (`did not return data`) -/
  | fetchNoData (id : String)
  /-- `json.Unmarshal` failure on the API body -/
  | unmarshalFailed (id : String)
  /-- `Failed to add new instance: %s` wrapping of an inner `add` error -/
  | addFailed (e : RepoErr)
  /-- `os.Remove` failure propagated by `Remove` -/
  | removeFileFailed (id : String)
  deriving DecidableEq, Repr

/-- Body of a 200 response from the control-plane API, after the
`json.Unmarshal` attempt. -/
inductive Body where
  | malformed
  | record (r : InstanceConfig)
  deriving DecidableEq, Repr

/-- Result of `api.Get(apiKey, <link>/<id>)`: a transport error, or a
status code with an optional body. -/
inductive FetchResult where
  | transportErr
  | response (code : Nat) (body : Option Body)
  deriving DecidableEq, Repr

/-- External environment of the registry: the `insts` entry link
(`""` when the API exposes none), the remote GET modelled as a fixed
function of the id, and the outcomes of the file-system calls.

`writeOk` models `pct.Basedir.WriteConfig` (not part of this repository's
sources). Modelled from the spec: a write either persists the record's
backing file and succeeds, or fails leaving neither file nor map entry
present. `removeOk` models `os.Remove`: on failure the file stays. -/
structure Env where
  link : String
  fetch : String → FetchResult
  writeOk : Bool
  removeOk : Bool

/-- State of a `Repo` (src/instance/repo.go): the in-memory map `it`
keyed by UUID, and the set of backing files `instance-<id>.conf`
represented by the decoded record each file holds, keyed by the id in
the file name. -/
structure RepoState where
  it : List (String × InstanceConfig)
  files : List (String × InstanceConfig)
  deriving DecidableEq, Repr

/-- `valid` (src/instance/repo.go:208): the id must match
`^[[:xdigit:]]{32}$`. -/
def validId (id : String) : Bool :=
  id.length == 32 && id.toList.all (fun c =>
    c.isDigit || decide ('a' ≤ c ∧ c ≤ 'f') || decide ('A' ≤ c ∧ c ≤ 'F'))

/-- `Repo.add` (src/instance/repo.go:107): duplicate check, optional
`WriteConfig`, then map insert.  Returns the new state, the number of
`WriteConfig` calls issued, and the error if any. -/
def Repo.add (s : RepoState) (itc : InstanceConfig) (writeToDisk : Bool) (env : Env) :
    RepoState × Nat × Option RepoErr :=
  if (alookup itc.UUID s.it).isSome then
    (s, 0, some (.duplicate itc.UUID))
  else if writeToDisk then
    if env.writeOk then
      ({ it := ainsert itc.UUID itc s.it, files := ainsert itc.UUID itc s.files },
       1, none)
    else
      (s, 1, some (.writeFailed itc.UUID))
  else
    ({ s with it := ainsert itc.UUID itc s.it }, 0, none)

/-- `Repo.Add` (src/instance/repo.go:97): takes the lock and delegates
to `add`. -/
def Repo.Add (s : RepoState) (itc : InstanceConfig) (writeToDisk : Bool) (env : Env) :
    RepoState × Nat × Option RepoErr :=
  Repo.add s itc writeToDisk env

instance exceptDecEq {ε α : Type} [DecidableEq ε] [DecidableEq α] :
    DecidableEq (Except ε α) := fun a b =>
  match a, b with
  | .error e, .error f =>
    if h : e = f then .isTrue (by rw [h]) else .isFalse (by simp [h])
  | .ok x, .ok y =>
    if h : x = y then .isTrue (by rw [h]) else .isFalse (by simp [h])
  | .error _, .ok _ => .isFalse (by simp)
  | .ok _, .error _ => .isFalse (by simp)

/-- Result of a `get`: the state after the call, the number of remote
GETs issued, and the returned record or error. -/
structure GetResult where
  state : RepoState
  fetches : Nat
  out : Except RepoErr InstanceConfig
  deriving DecidableEq, Repr

/-- The caller's one remote GET added to a recursive call's tally. -/
def GetResult.addFetch : GetResult → GetResult
  | ⟨s, n, out⟩ => ⟨s, n + 1, out⟩

/-- `Repo.get` (src/instance/repo.go:136), fuel-indexed.  The Go function
recurses after caching a fetched record; `c9_get_terminates` below proves
the recursion never goes deeper than two calls, so `Repo.get := getAux 2`
is the function's exact semantics.  Fuel 0 is never reached from fuel ≥ 2. -/
def Repo.getAux (env : Env) : Nat → RepoState → String → GetResult
  | 0, s, id => ⟨s, 0, .error (.unknown id)⟩
  | n + 1, s, id =>
    if validId id then
      match alookup id s.it with
      | some inst => ⟨s, 0, .ok inst⟩
      | none =>
        if env.link = "" then
          ⟨s, 0, .error (.unknown id)⟩
        else
          match env.fetch id with
          | .transportErr => ⟨s, 1, .error (.fetchTransport id)⟩
          | .response code body =>
            if code ≠ 200 then ⟨s, 1, .error (.fetchBadCode id code)⟩
            else
              match body with
              | none => ⟨s, 1, .error (.fetchNoData id)⟩
              | some .malformed => ⟨s, 1, .error (.unmarshalFailed id)⟩
              | some (.record r) =>
                match Repo.add s r true env with
                | (s', _, some e) => ⟨s', 1, .error (.addFailed e)⟩
                | (s', _, none) => (Repo.getAux env n s' id).addFetch
    else
      ⟨s, 0, .error (.invalidId id)⟩

/-- `Repo.get` / `Repo.Get` (src/instance/repo.go:126,136): the recursion
depth is at most two (`getFuel_stable`), so fuel 2 gives the exact
semantics of the unbounded Go recursion. -/
def Repo.get (s : RepoState) (env : Env) (id : String) : GetResult :=
  Repo.getAux env 2 s id

/-- `Repo.Remove` (src/instance/repo.go:180): id validation, presence
check, `os.Remove` of the backing file, then map delete.  The middle
component counts `os.Remove` calls. -/
def Repo.Remove (s : RepoState) (env : Env) (id : String) :
    RepoState × Nat × Option RepoErr :=
  if validId id then
    match alookup id s.it with
    | none => (s, 0, some (.unknown id))
    | some _ =>
      if env.removeOk then
        ({ it := aerase id s.it, files := aerase id s.files }, 1, none)
      else
        (s, 1, some (.removeFileFailed id))
  else
    (s, 0, some (.invalidId id))

/-! ## Monitor: the MySQL restart monitor (src/unnamed/part_002) -/

/-- State of one watched target (`MysqlInstance`): its subscriber set and
its restart fingerprint.

Modelled from the spec: the `MysqlInstance` and `Subscribers` types are
not among this repository's sources (only `monitor.go` which calls them
is).  Per spec §3/§4.2, a Subscription is a per-target set of delivery
channels, and the fingerprint is the per-target last-observed liveness
marker kept alongside it.  Channels are numeric identifiers; fingerprints
are numbers. -/
structure MysqlInstance where
  subs : List Nat
  fingerprint : Nat
  deriving DecidableEq, Repr

/-- State of the `Monitor` (src/unnamed/part_002): the watch table
`mysqlInstances` keyed by DSN, plus a counter producing the fresh channel
each `Subscribers.Add` hands out. -/
structure MonitorState where
  mysqlInstances : List (String × MysqlInstance)
  nextChan : Nat
  deriving DecidableEq, Repr

/-- The empty monitor produced by `NewMonitor`. -/
def Monitor.init : MonitorState := ⟨[], 0⟩

/-- `Monitor.Add` (src/unnamed/part_002:74): if the DSN is unwatched,
create the instance (its baseline fingerprint comes from the `baseline`
oracle; `none` is the creation failure propagated to the caller, state
unchanged); then add a fresh channel to the target's subscriber set and
return it. -/
def Monitor.Add (m : MonitorState) (dsn : String) (baseline : String → Option Nat) :
    MonitorState × Option Nat :=
  match alookup dsn m.mysqlInstances with
  | some _ =>
    let c := m.nextChan
    ({ mysqlInstances :=
         aupdate dsn (fun mi => { mi with subs := mi.subs ++ [c] }) m.mysqlInstances,
       nextChan := c + 1 }, some c)
  | none =>
    match baseline dsn with
    | none => (m, none)
    | some f =>
      let c := m.nextChan
      ({ mysqlInstances := (dsn, ⟨[c], f⟩) :: m.mysqlInstances,
         nextChan := c + 1 }, some c)

/-- `Monitor.Remove` (src/unnamed/part_002:93): if the DSN is watched,
remove the channel from its subscriber set (set removal — modelled from
the spec for `Subscribers.Remove`); if the set becomes empty, delete the
target.  An unwatched DSN is a no-op. -/
def Monitor.Remove (m : MonitorState) (dsn : String) (c : Nat) : MonitorState :=
  match alookup dsn m.mysqlInstances with
  | none => m
  | some mi =>
    let subs' := mi.subs.filter (fun x => x ≠ c)
    if subs' = [] then
      { m with mysqlInstances := aerase dsn m.mysqlInstances }
    else
      { m with mysqlInstances :=
          aupdate dsn (fun i => { i with subs := subs' }) m.mysqlInstances }

/-- One target's `CheckIfMysqlRestarted`.  Modelled from the spec: the
current fingerprint is read from the `current` oracle; a read failure
(`none`) is treated as "no restart this tick"; a changed fingerprint
updates the baseline and signals a restart. -/
def checkInstance (cur : Option Nat) (mi : MysqlInstance) : MysqlInstance × Bool :=
  match cur with
  | none => (mi, false)
  | some f => if f ≠ mi.fingerprint then ({ mi with fingerprint := f }, true) else (mi, false)

/-- `Monitor.Check` (src/unnamed/part_002:105): visit every entry of the
watch table, updating fingerprints.  Returns the new state and the list
of targets the tick checked (the loop's exact iteration domain). -/
def Monitor.Check (m : MonitorState) (current : String → Option Nat) :
    MonitorState × List String :=
  ({ m with mysqlInstances :=
      m.mysqlInstances.map (fun p => (p.1, (checkInstance (current p.1) p.2).1)) },
   m.mysqlInstances.map Prod.fst)

/-- The monitor states reachable from the empty watch table by any
sequence of `Add` and `Remove` calls, under arbitrary baseline
outcomes. -/
inductive MonitorReachable : MonitorState → Prop
  | init : MonitorReachable Monitor.init
  | add (m : MonitorState) (dsn : String) (baseline : String → Option Nat) :
      MonitorReachable m → MonitorReachable (Monitor.Add m dsn baseline).1
  | remove (m : MonitorState) (dsn : String) (c : Nat) :
      MonitorReachable m → MonitorReachable (Monitor.Remove m dsn c)

/-! ## Manager: the command coordinator (src/unnamed/part_004) -/

/-- Environment of the `Manager`: the registry's environment, the
restart-monitor baseline oracle, the MySQL metadata probe
(`GetMySQLInfo`'s connection + query: DSN to (hostname, distro, version),
`none` on connect or query failure), and the control-plane PUT outcome of
`pushInstanceInfo`. -/
structure MEnv where
  repoEnv : Env
  baseline : String → Option Nat
  probe : String → Option (String × String × String)
  pushOk : InstanceConfig → Bool

/-- State owned by the `Manager`: its `Repo`, the restart monitor, and
the `mrmChans` map of per-DSN subscription channels. -/
structure ManagerState where
  repo : RepoState
  mrm : MonitorState
  mrmChans : List (String × Nat)
  deriving DecidableEq, Repr

/-- A command envelope `proto.Cmd`: the command name and its payload
after the `json.Unmarshal` attempt (`none`: the bytes do not decode). -/
structure Cmd where
  Cmd : String
  Data : Option InstanceConfig
  deriving DecidableEq, Repr

/-- The error strings a `Handle` reply can carry. -/
inductive HErr where
  /-- the payload `json.Unmarshal` error -/
  | unmarshal
  /-- a registry error returned verbatim -/
  | repo (e : RepoErr)
  /-- `pct.UnknownCmdError{Cmd: ...}` -/
  | unknownCmd (name : String)
  /-- `Don't know how to get info for %s instance` -/
  | getInfoNotMySQL (uuid : String)
  /-- the error `GetMySQLInfo` returns (connect or query failure) -/
  | probeFailed
  deriving DecidableEq, Repr

/-- A reply envelope `proto.Reply`: `cmd.Reply(data, err)`. -/
structure Reply where
  data : Option InstanceConfig
  error : Option HErr
  deriving DecidableEq, Repr

/-- Outcome of one `Handle` call: the reply (`none` when the call panics
on a nil-pointer dereference), the state after the call, and how many
metadata probes, remote GETs and remote PUTs it issued. -/
structure HandleResult where
  out : Option Reply
  state : ManagerState
  probes : Nat
  fetches : Nat
  pushes : Nat
  deriving DecidableEq, Repr

/-- `GetMySQLInfo` (src/unnamed/part_004:276): connect to
`it.Properties["dsn"]` (the Go map read yields `""` when the key is
absent), run the probe query, and write hostname/distro/version into the
record's properties; `none` is the propagated failure, which leaves the
record unchanged. -/
def GetMySQLInfo (env : MEnv) (it : InstanceConfig) : Option InstanceConfig :=
  match env.probe (propGet it.Properties "dsn") with
  | none => none
  | some (host, distro, version) =>
    some { it with Properties :=
      (ainsert "version" version (ainsert "distro" distro
        (ainsert "hostname" host it.Properties))) }

/-- `Manager.handleGetInfo` (src/unnamed/part_004:269): reject
non-database records, otherwise probe.  Returns the (possibly updated)
record, the number of probes issued, and the error if any. -/
def Manager.handleGetInfo (env : MEnv) (it : InstanceConfig) :
    InstanceConfig × Nat × Option HErr :=
  if isMySQLConfig it then
    match GetMySQLInfo env it with
    | none => (it, 1, some .probeFailed)
    | some it' => (it', 1, none)
  else
    (it, 0, some (.getInfoNotMySQL it.UUID))

/-- `Manager.Handle` (src/unnamed/part_004:177): decode the payload and
dispatch on the command name.

* `Add`: primary `repo.Add` (persisted); its failure is the reply's
  error.  Then the secondary phase — canonical re-`Get`, monitor
  registration, probe, push — whose failures are logged and never reach
  the reply.
* `Remove`: `repo.Get` the record; on a `Get` error the code logs it and
  then dereferences the nil `iit` in `m.repo.Remove(iit.UUID)`: the call
  panics (`out = none`).  Otherwise best-effort `mrm.Remove` keyed by the
  record's "dns" property, then `repo.Remove`, whose error is the reply's.
* `GetInfo`: `handleGetInfo`, reply carries the record and its error.
* anything else: `pct.UnknownCmdError`. -/
def Manager.Handle (env : MEnv) (st : ManagerState) (cmd : Cmd) : HandleResult :=
  match cmd.Data with
  | none => ⟨some ⟨none, some .unmarshal⟩, st, 0, 0, 0⟩
  | some it =>
    if cmd.Cmd = "Add" then
      match Repo.Add st.repo it true env.repoEnv with
      | (repo1, _, some e) =>
        ⟨some ⟨none, some (.repo e)⟩, { st with repo := repo1 }, 0, 0, 0⟩
      | (repo1, _, none) =>
        let g := Repo.get repo1 env.repoEnv it.UUID
        let st1 := { st with repo := g.state }
        match g.out with
        | .error _ => ⟨some ⟨none, none⟩, st1, 0, g.fetches, 0⟩
        | .ok iit =>
          if isMySQLConfig iit then
            match alookup "dsn" iit.Properties with
            | none => ⟨some ⟨none, none⟩, st1, 0, g.fetches, 0⟩
            | some dsn =>
              match Monitor.Add st1.mrm dsn env.baseline with
              | (mrm', none) =>
                ⟨some ⟨none, none⟩, { st1 with mrm := mrm' }, 0, g.fetches, 0⟩
              | (mrm', some ch) =>
                let st2 :=
                  { st1 with mrm := mrm', mrmChans := ainsert dsn ch st1.mrmChans }
                match GetMySQLInfo env iit with
                | none => ⟨some ⟨none, none⟩, st2, 1, g.fetches, 0⟩
                | some _ => ⟨some ⟨none, none⟩, st2, 1, g.fetches, 1⟩
          else ⟨some ⟨none, none⟩, st1, 0, g.fetches, 0⟩
    else if cmd.Cmd = "Remove" then
      let g := Repo.get st.repo env.repoEnv it.UUID
      match g.out with
      | .error _ =>
        ⟨none, { st with repo := g.state }, 0, g.fetches, 0⟩
      | .ok iit =>
        let st1 := { st with repo := g.state }
        let st2 :=
          if isMySQLConfig iit then
            match alookup "dns" iit.Properties with
            | some dns =>
              { st1 with mrm :=
                  Monitor.Remove st1.mrm dns ((alookup dns st1.mrmChans).getD 0) }
            | none => st1
          else st1
        match Repo.Remove st2.repo env.repoEnv iit.UUID with
        | (repo', _, e) =>
          ⟨some ⟨none, e.map .repo⟩, { st2 with repo := repo' }, 0, g.fetches, 0⟩
    else if cmd.Cmd = "GetInfo" then
      match Manager.handleGetInfo env it with
      | (it', n, e) => ⟨some ⟨some it', e⟩, st, n, 0, 0⟩
    else
      ⟨some ⟨none, some (.unknownCmd cmd.Cmd)⟩, st, 0, 0, 0⟩

/-! ## Concrete sample data used by witnesses and counterexamples -/

/-- A well-formed 32-hex-digit id (one of the repository's test ids). -/
def uuidA : String := "31dd3b7b602849f8871fd3e7acc8c2e3"

/-- A second well-formed id, distinct from `uuidA`. -/
def uuidB : String := "dc2b15a5400b4c67ab27848255468e65"

/-- A database-type record with a connection string. -/
def recA : InstanceConfig := ⟨uuidA, "MySQL", "mysql", [("dsn", "u:p@tcp(h:3306)/")]⟩

/-- A host-type record. -/
def recOS : InstanceConfig := ⟨uuidB, "OS", "os", []⟩

/-- An environment with no `insts` API link and failing I/O oracles. -/
def envNoApi : Env := ⟨"", fun _ => .transportErr, true, true⟩

/-- An environment whose remote GET always returns 200 with record `r`. -/
def envApi (r : InstanceConfig) : Env :=
  ⟨"http://localhost/insts", fun _ => .response 200 (some (.record r)), true, true⟩

/-- An empty registry. -/
def repoEmpty : RepoState := ⟨[], []⟩

/-- A registry whose map and file set hold exactly `recA`. -/
def repoWithA : RepoState := ⟨[(uuidA, recA)], [(uuidA, recA)]⟩

/-! ## C5, C6, C7 — registry error handling -/

/-- C5: if `Add` returns an error — Duplicate, or a backing-file write
failure when the persist flag is set — the registry state (map and file
set) is exactly as it was before the call: no map entry is created and no
backing file is left behind. -/
theorem c5_add_error_leaves_registry_unchanged (s : RepoState) (itc : InstanceConfig)
    (writeToDisk : Bool) (env : Env) (e : RepoErr)
    (h : (Repo.Add s itc writeToDisk env).2.2 = some e) :
    (Repo.Add s itc writeToDisk env).1 = s := by
  unfold Repo.Add Repo.add at h ⊢
  by_cases hd : (alookup itc.UUID s.it).isSome
  · simp [hd]
  · cases writeToDisk with
    | false => simp [hd] at h
    | true =>
      cases hw : env.writeOk with
      | false => simp [hd, hw]
      | true => simp [hd, hw] at h

/-- C5 witness: adding a record whose id is already present fails, and
the registry is left exactly as it was. -/
theorem c5_witness :
    (Repo.Add repoWithA recA true envNoApi).2.2 = some (.duplicate uuidA) ∧
    (Repo.Add repoWithA recA true envNoApi).1 = repoWithA :=
  ⟨by decide,
   c5_add_error_leaves_registry_unchanged repoWithA recA true envNoApi
     (.duplicate uuidA) (by decide)⟩

/-- C6: `Add` on a record whose id is already present fails with the
Duplicate-instance error for both values of the persist flag, and issues
no `WriteConfig` call (the middle component counts them). -/
theorem c6_add_duplicate (s : RepoState) (itc : InstanceConfig) (v : InstanceConfig)
    (writeToDisk : Bool) (env : Env)
    (h : alookup itc.UUID s.it = some v) :
    Repo.Add s itc writeToDisk env = (s, 0, some (.duplicate itc.UUID)) := by
  unfold Repo.Add Repo.add
  simp [h]

/-- C6 witness: the duplicate failure at a concrete registry, for both
persist flags. -/
theorem c6_witness :
    Repo.Add repoWithA recA true envNoApi = (repoWithA, 0, some (.duplicate uuidA)) ∧
    Repo.Add repoWithA recA false envNoApi = (repoWithA, 0, some (.duplicate uuidA)) :=
  ⟨c6_add_duplicate repoWithA recA recA true envNoApi (by decide),
   c6_add_duplicate repoWithA recA recA false envNoApi (by decide)⟩

/-- C7: on an id that is not 32 hexadecimal digits, `Get` fails with the
Invalid-id error issuing no remote GET and leaving the registry (map and
files) untouched, and `Remove` fails with the Invalid-id error issuing no
`os.Remove` call and leaving the registry untouched. -/
theorem c7_validation_first (s : RepoState) (env : Env) (id : String)
    (h : validId id = false) :
    Repo.get s env id = ⟨s, 0, .error (.invalidId id)⟩ ∧
    Repo.Remove s env id = (s, 0, some (.invalidId id)) := by
  constructor
  · unfold Repo.get Repo.getAux
    simp [h]
  · unfold Repo.Remove
    simp [h]

/-- C7 witness: a concrete malformed id. -/
theorem c7_witness :
    Repo.get repoWithA envNoApi "not-a-hex-id" =
      ⟨repoWithA, 0, .error (.invalidId "not-a-hex-id")⟩ ∧
    Repo.Remove repoWithA envNoApi "not-a-hex-id" =
      (repoWithA, 0, some (.invalidId "not-a-hex-id")) :=
  c7_validation_first repoWithA envNoApi "not-a-hex-id" (by decide)

/-! ## C2, C9 — the fetch-and-cache recursion of `Repo.get` -/

@[simp] theorem GetResult.addFetch_def (r : GetResult) :
    r.addFetch = ⟨r.state, r.fetches + 1, r.out⟩ := by
  cases r
  rfl

/-- A successful persisted `add` inserts the record into both the map and
the file set. -/
theorem Repo.add_success_state (s : RepoState) (itc : InstanceConfig) (env : Env)
    (s' : RepoState) (w : Nat) (h : Repo.add s itc true env = (s', w, none)) :
    s' = ⟨ainsert itc.UUID itc s.it, ainsert itc.UUID itc s.files⟩ := by
  unfold Repo.add at h
  by_cases hd : (alookup itc.UUID s.it).isSome
  · simp [hd] at h
  · cases hw : env.writeOk with
    | false => simp [hd, hw] at h
    | true =>
      simp [hd, hw] at h
      exact h.1.symm

/-- One unfolding of `getAux` along the fetch-success, add-success path:
the caller issues its GET, caches the record, and recurses. -/
theorem Repo.getAux_succ_eq (env : Env) (n : Nat) (s : RepoState) (id : String)
    (r : InstanceConfig) (s' : RepoState) (w : Nat) (code : Nat)
    (hv : validId id = true) (hl : alookup id s.it = none) (hlink : env.link ≠ "")
    (hc : code = 200) (hf : env.fetch id = .response code (some (.record r)))
    (hadd : Repo.add s r true env = (s', w, none)) :
    Repo.getAux env (n + 1) s id = (Repo.getAux env n s' id).addFetch := by
  simp [Repo.getAux, hv, hl, hlink, hf, hc, hadd]

/-- Each level of the `get` recursion issues at most one remote GET. -/
theorem Repo.getAux_fetches_le (env : Env) :
    ∀ (n : Nat) (s : RepoState) (id : String), (Repo.getAux env n s id).fetches ≤ n := by
  intro n
  induction n with
  | zero =>
    intro s id
    simp [Repo.getAux]
  | succ n ih =>
    intro s id
    by_cases hv : validId id
    · cases hl : alookup id s.it with
      | some v => simp [Repo.getAux, hv, hl]
      | none =>
        by_cases hlink : env.link = ""
        · simp [Repo.getAux, hv, hl, hlink]
        · cases hf : env.fetch id with
          | transportErr => simp [Repo.getAux, hv, hl, hlink, hf]
          | response code body =>
            by_cases hc : code = 200
            · cases body with
              | none => simp [Repo.getAux, hv, hl, hlink, hf, hc]
              | some b =>
                cases b with
                | malformed => simp [Repo.getAux, hv, hl, hlink, hf, hc]
                | record r =>
                  cases hadd : Repo.add s r true env with
                  | mk s' rest =>
                    obtain ⟨w, e⟩ := rest
                    cases e with
                    | some e =>
                      simp [Repo.getAux, hv, hl, hlink, hf, hc, hadd]
                    | none =>
                      rw [Repo.getAux_succ_eq env n s id r s' w code hv hl hlink hc hf hadd]
                      have := ih s' id
                      simp only [GetResult.addFetch_def]
                      omega
            · simp [Repo.getAux, hv, hl, hlink, hf, hc]
    · simp [Repo.getAux, hv]

/-- Once a state holds a record whose UUID the remote GET for `id` keeps
returning, one more level of fuel decides `get`: every branch, including
the re-fetch whose `add` now finds a duplicate, returns without further
recursion, so the result does not depend on the fuel. -/
theorem Repo.getAux_fuel_indep (env : Env) (s : RepoState) (id : String)
    (H : ∀ (code : Nat) (r : InstanceConfig),
      env.fetch id = .response code (some (.record r)) →
      (alookup r.UUID s.it).isSome) :
    ∀ m, Repo.getAux env (m + 1) s id = Repo.getAux env 1 s id := by
  intro m
  by_cases hv : validId id
  · cases hl : alookup id s.it with
    | some v => simp [Repo.getAux, hv, hl]
    | none =>
      by_cases hlink : env.link = ""
      · simp [Repo.getAux, hv, hl, hlink]
      · cases hf : env.fetch id with
        | transportErr => simp [Repo.getAux, hv, hl, hlink, hf]
        | response code body =>
          by_cases hc : code = 200
          · cases body with
            | none => simp [Repo.getAux, hv, hl, hlink, hf, hc]
            | some b =>
              cases b with
              | malformed => simp [Repo.getAux, hv, hl, hlink, hf, hc]
              | record r =>
                have hdup : (alookup r.UUID s.it).isSome := H code r hf
                have hadd : Repo.add s r true env = (s, 0, some (.duplicate r.UUID)) := by
                  unfold Repo.add
                  simp [hdup]
                simp [Repo.getAux, hv, hl, hlink, hf, hc, hadd]
          · simp [Repo.getAux, hv, hl, hlink, hf, hc]
  · simp [Repo.getAux, hv]

/-- Fuel 2 is enough for `Repo.getAux`: the Go recursion never goes
deeper than one recursive call, because the recursive call either hits
the just-cached record or finds its `add` a duplicate. -/
theorem Repo.getAux_fuel_stable (env : Env) (s : RepoState) (id : String) :
    ∀ n, Repo.getAux env (n + 2) s id = Repo.getAux env 2 s id := by
  intro n
  by_cases hv : validId id
  · cases hl : alookup id s.it with
    | some v => simp [Repo.getAux, hv, hl]
    | none =>
      by_cases hlink : env.link = ""
      · simp [Repo.getAux, hv, hl, hlink]
      · cases hf : env.fetch id with
        | transportErr => simp [Repo.getAux, hv, hl, hlink, hf]
        | response code body =>
          by_cases hc : code = 200
          · cases body with
            | none => simp [Repo.getAux, hv, hl, hlink, hf, hc]
            | some b =>
              cases b with
              | malformed => simp [Repo.getAux, hv, hl, hlink, hf, hc]
              | record r =>
                cases hadd : Repo.add s r true env with
                | mk s' rest =>
                  obtain ⟨w, e⟩ := rest
                  cases e with
                  | some e => simp [Repo.getAux, hv, hl, hlink, hf, hc, hadd]
                  | none =>
                    have hs' : s' = ⟨ainsert r.UUID r s.it, ainsert r.UUID r s.files⟩ :=
                      Repo.add_success_state s r env s' w hadd
                    have H : ∀ (code' : Nat) (r' : InstanceConfig),
                        env.fetch id = .response code' (some (.record r')) →
                        (alookup r'.UUID s'.it).isSome := by
                      intro code' r' hf'
                      rw [hf] at hf'
                      obtain ⟨-, hb⟩ := FetchResult.response.inj hf'
                      obtain rfl : r = r' := Body.record.inj (Option.some.inj hb)
                      rw [hs']
                      simp
                    have hrec := Repo.getAux_fuel_indep env s' id H n
                    show Repo.getAux env ((n + 1) + 1) s id = Repo.getAux env (1 + 1) s id
                    rw [Repo.getAux_succ_eq env (n + 1) s id r s' w code hv hl hlink hc hf hadd,
                      Repo.getAux_succ_eq env 1 s id r s' w code hv hl hlink hc hf hadd, hrec]
          · simp [Repo.getAux, hv, hl, hlink, hf, hc]
  · simp [Repo.getAux, hv]

/-- C9: with the remote API a fixed function of the id, `get` terminates —
any fuel beyond 2 computes the same result as `Repo.get` — and issues at
most two remote GETs; on a cache miss whose fetched record carries the
requested id the recursive re-read returns that record after exactly one
GET plus one re-read, and when the fetched record's UUID differs from the
requested id the re-read's second insertion finds a duplicate and returns
an error after the second GET instead of recursing further. -/
theorem c9_get_terminates (env : Env) (s : RepoState) (id : String) (r : InstanceConfig) :
    (∀ n, Repo.getAux env (n + 2) s id = Repo.get s env id) ∧
    (Repo.get s env id).fetches ≤ 2 ∧
    (validId id = true → alookup id s.it = none → env.link ≠ "" →
      env.fetch id = .response 200 (some (.record r)) →
      alookup r.UUID s.it = none → env.writeOk = true →
      ((r.UUID = id →
          (Repo.get s env id).out = .ok r ∧ (Repo.get s env id).fetches = 1) ∧
       (r.UUID ≠ id →
          (Repo.get s env id).out = .error (.addFailed (.duplicate r.UUID)) ∧
          (Repo.get s env id).fetches = 2))) := by
  refine ⟨Repo.getAux_fuel_stable env s id, Repo.getAux_fetches_le env 2 s id, ?_⟩
  intro hv hl hlink hf habs hw
  have hadd : Repo.add s r true env =
      (⟨ainsert r.UUID r s.it, ainsert r.UUID r s.files⟩, 1, none) := by
    unfold Repo.add
    simp [habs, hw]
  constructor
  · intro huuid
    subst huuid
    have hhit : alookup r.UUID (ainsert r.UUID r s.it) = some r := by simp
    constructor <;>
      simp [Repo.get, Repo.getAux, hv, hl, hlink, hf, hadd, hhit]
  · intro huuid
    have hmiss : alookup id (ainsert r.UUID r s.it) = alookup id s.it :=
      alookup_ainsert_ne r.UUID id r s.it (fun h => huuid h.symm)
    have hdup : alookup r.UUID (ainsert r.UUID r s.it) = some r := by simp
    have hadd2 : Repo.add ⟨ainsert r.UUID r s.it, ainsert r.UUID r s.files⟩ r true env =
        (⟨ainsert r.UUID r s.it, ainsert r.UUID r s.files⟩, 0, some (.duplicate r.UUID)) := by
      unfold Repo.add
      simp [hdup]
    constructor <;>
      simp [Repo.get, Repo.getAux, hv, hl, hlink, hf, hadd, hmiss, hadd2]

/-- C9 witness: at a concrete state and environment both the fuel
stability and the fetch bound hold, and the mismatch branch errors after
two GETs. -/
theorem c9_witness :
    Repo.getAux (envApi recOS) 5 repoEmpty uuidA = Repo.get repoEmpty (envApi recOS) uuidA ∧
    (Repo.get repoEmpty (envApi recOS) uuidA).fetches ≤ 2 ∧
    (Repo.get repoEmpty (envApi recOS) uuidA).out =
      .error (.addFailed (.duplicate uuidB)) ∧
    (Repo.get repoEmpty (envApi recOS) uuidA).fetches = 2 := by
  have h := c9_get_terminates (envApi recOS) repoEmpty uuidA recOS
  have h3 := (h.2.2 (by decide) (by decide) (by decide) (by decide) (by decide)
    (by decide)).2 (by decide)
  exact ⟨h.1 3, h.2.1, h3.1, h3.2⟩

/-- C2 counterexample: an id absent locally, a configured remote link
answering 200 with a JSON record — but the record's UUID differs from the
requested id.  `Get` then returns an error, not a record equal to the
remote payload, so the claim as stated fails at this input. -/
theorem c2_counterexample :
    (Repo.get repoEmpty (envApi recOS) uuidA).out =
      .error (.addFailed (.duplicate uuidB)) ∧
    ∀ r : InstanceConfig, (Repo.get repoEmpty (envApi recOS) uuidA).out ≠ .ok r := by
  constructor
  · decide
  · intro r h
    rw [show (Repo.get repoEmpty (envApi recOS) uuidA).out =
      .error (.addFailed (.duplicate uuidB)) from by decide] at h
    exact Except.noConfusion h

/-- C2 (amended with the fetched record's UUID equalling the requested
id, and the backing-file write succeeding): `Get` on a well-formed id
absent locally, with a configured remote link whose keyed GET returns 200
and a record `r` carrying that id, inserts `r` into both the map and the
persisted file set and returns `r`; a second `Get` of the same id returns
the same record from the same state with zero further remote GETs. -/
theorem c2_fallback_fetch_and_cache (s : RepoState) (env : Env) (id : String)
    (r : InstanceConfig) (hv : validId id = true) (habs : alookup id s.it = none)
    (hlink : env.link ≠ "") (hf : env.fetch id = .response 200 (some (.record r)))
    (huuid : r.UUID = id) (hw : env.writeOk = true) :
    (Repo.get s env id).out = .ok r ∧
    alookup id (Repo.get s env id).state.it = some r ∧
    alookup id (Repo.get s env id).state.files = some r ∧
    Repo.get (Repo.get s env id).state env id = ⟨(Repo.get s env id).state, 0, .ok r⟩ := by
  subst huuid
  have hadd : Repo.add s r true env =
      (⟨ainsert r.UUID r s.it, ainsert r.UUID r s.files⟩, 1, none) := by
    unfold Repo.add
    simp [habs, hw]
  have hhit : alookup r.UUID (ainsert r.UUID r s.it) = some r := by simp
  have hget : Repo.get s env r.UUID =
      ⟨⟨ainsert r.UUID r s.it, ainsert r.UUID r s.files⟩, 1, .ok r⟩ := by
    simp [Repo.get, Repo.getAux, hv, habs, hlink, hf, hadd, hhit]
  rw [hget]
  exact ⟨rfl, hhit, by simp, by simp [Repo.get, Repo.getAux, hv, hhit]⟩

/-- C2 witness: the amended theorem at a concrete empty registry and a
remote returning the matching record. -/
theorem c2_witness :
    (Repo.get repoEmpty (envApi recA) uuidA).out = .ok recA ∧
    alookup uuidA (Repo.get repoEmpty (envApi recA) uuidA).state.it = some recA ∧
    alookup uuidA (Repo.get repoEmpty (envApi recA) uuidA).state.files = some recA ∧
    Repo.get (Repo.get repoEmpty (envApi recA) uuidA).state (envApi recA) uuidA =
      ⟨(Repo.get repoEmpty (envApi recA) uuidA).state, 0, .ok recA⟩ :=
  c2_fallback_fetch_and_cache repoEmpty (envApi recA) uuidA recA (by decide) (by decide)
    (by decide) (by decide) (by decide) (by decide)

/-! ## C8, C1, C4 — the coordinator's Handle -/

/-- An empty manager state. -/
def stEmpty : ManagerState := ⟨repoEmpty, Monitor.init, []⟩

/-- A manager environment with no API link and failing oracles. -/
def menvNone : MEnv := ⟨envNoApi, fun _ => none, fun _ => none, fun _ => false⟩

/-- C8: for an Add envelope whose payload decodes, the reply carries an
error exactly when the primary `repo.Add` fails, and it carries that very
error; once `repo.Add` has succeeded the reply is a success whatever the
environment does to the secondary phase (re-fetch, monitor registration,
probe, push). -/
theorem c8_add_reply_error_iff_add_failed (env : MEnv) (st : ManagerState)
    (it : InstanceConfig) :
    (∀ e : RepoErr, (Repo.Add st.repo it true env.repoEnv).2.2 = some e →
      (Manager.Handle env st ⟨"Add", some it⟩).out = some ⟨none, some (.repo e)⟩) ∧
    ((Repo.Add st.repo it true env.repoEnv).2.2 = none →
      (Manager.Handle env st ⟨"Add", some it⟩).out = some ⟨none, none⟩) := by
  constructor
  · intro e he
    cases hadd : Repo.Add st.repo it true env.repoEnv with
    | mk repo1 rest =>
      obtain ⟨w, e'⟩ := rest
      rw [hadd] at he
      simp only at he
      subst he
      simp [Manager.Handle, hadd]
  · intro he
    cases hadd : Repo.Add st.repo it true env.repoEnv with
    | mk repo1 rest =>
      obtain ⟨w, e'⟩ := rest
      rw [hadd] at he
      simp only at he
      subst he
      simp only [Manager.Handle, hadd]
      repeat' split
      all_goals simp_all

/-- C8 witness: a concrete duplicate Add fails with the repo's error in
the reply, and a concrete fresh Add succeeds with a success reply even
though the monitor, probe and push oracles all fail. -/
theorem c8_witness :
    (Manager.Handle menvNone ⟨repoWithA, Monitor.init, []⟩ ⟨"Add", some recA⟩).out =
      some ⟨none, some (.repo (.duplicate uuidA))⟩ ∧
    (Manager.Handle menvNone stEmpty ⟨"Add", some recA⟩).out = some ⟨none, none⟩ :=
  ⟨(c8_add_reply_error_iff_add_failed menvNone ⟨repoWithA, Monitor.init, []⟩ recA).1
      (.duplicate uuidA) (by decide),
   (c8_add_reply_error_iff_add_failed menvNone stEmpty recA).2 (by decide)⟩

/-- A database-type record whose id is well-formed but absent everywhere. -/
def recBadId : InstanceConfig := ⟨"zzz", "MySQL", "mysql", []⟩

/-- C1: a Remove envelope whose record resolves to a `Get` error — id
well-formed but absent locally with no remote link (Unknown-instance),
or id malformed (Invalid-id) — makes `Handle` dereference the nil record
pointer in `m.repo.Remove(iit.UUID)`: the call panics (`out = none`)
instead of returning a reply carrying the registry's error. -/
theorem c1_handle_remove_panics :
    (Manager.Handle menvNone stEmpty ⟨"Remove", some recA⟩).out = none ∧
    (Manager.Handle menvNone stEmpty ⟨"Remove", some recBadId⟩).out = none := by
  decide

/-- A database-type record lacking the connection-string property. -/
def recNoDsn : InstanceConfig := ⟨uuidA, "MySQL", "mysql", []⟩

/-- C4 counterexample: a GetInfo envelope for a database-type record with
no connection-string property.  The claim says `Handle` returns an error
reply without performing a metadata probe; the code instead calls
`GetMySQLInfo`, which attempts the probe with the empty DSN the Go map
read yields — one probe is issued. -/
theorem c4_counterexample :
    (Manager.Handle menvNone stEmpty ⟨"GetInfo", some recNoDsn⟩).probes = 1 ∧
    (Manager.Handle menvNone stEmpty ⟨"GetInfo", some recNoDsn⟩).out =
      some ⟨some recNoDsn, some .probeFailed⟩ := by
  decide

/-- C4 (amended): a GetInfo envelope for a non-database record fails
immediately with the descriptive error, no probe, no state change; for a
database-type record lacking the connection-string property the probe is
attempted with the empty connection string (one probe issued), the call
does not crash, the state — registry included — is unchanged, and when
that probe fails its error is the reply's error. -/
theorem c4_getinfo_guard (env : MEnv) (st : ManagerState) (it : InstanceConfig) :
    (isMySQLConfig it = false →
      Manager.Handle env st ⟨"GetInfo", some it⟩ =
        ⟨some ⟨some it, some (.getInfoNotMySQL it.UUID)⟩, st, 0, 0, 0⟩) ∧
    (isMySQLConfig it = true → alookup "dsn" it.Properties = none →
      (Manager.Handle env st ⟨"GetInfo", some it⟩).probes = 1 ∧
      (Manager.Handle env st ⟨"GetInfo", some it⟩).state = st ∧
      (Manager.Handle env st ⟨"GetInfo", some it⟩).out ≠ none ∧
      (env.probe "" = none →
        (Manager.Handle env st ⟨"GetInfo", some it⟩).out =
          some ⟨some it, some .probeFailed⟩)) := by
  constructor
  · intro hmy
    simp [Manager.Handle, Manager.handleGetInfo, hmy]
  · intro hmy hdsn
    have hprop : propGet it.Properties "dsn" = "" := by
      simp [propGet, hdsn]
    cases hp : env.probe "" with
    | none =>
      simp [Manager.Handle, Manager.handleGetInfo, GetMySQLInfo, hmy, hprop, hp]
    | some info =>
      obtain ⟨host, distro, version⟩ := info
      simp [Manager.Handle, Manager.handleGetInfo, GetMySQLInfo, hmy, hprop, hp]

/-- C4 witness for the amended theorem: both guard branches at concrete
records. -/
theorem c4_witness :
    Manager.Handle menvNone stEmpty ⟨"GetInfo", some recOS⟩ =
      ⟨some ⟨some recOS, some (.getInfoNotMySQL uuidB)⟩, stEmpty, 0, 0, 0⟩ ∧
    (Manager.Handle menvNone stEmpty ⟨"GetInfo", some recNoDsn⟩).probes = 1 ∧
    (Manager.Handle menvNone stEmpty ⟨"GetInfo", some recNoDsn⟩).state = stEmpty :=
  ⟨(c4_getinfo_guard menvNone stEmpty recOS).1 (by decide),
   ((c4_getinfo_guard menvNone stEmpty recNoDsn).2 (by decide) (by decide)).1,
   ((c4_getinfo_guard menvNone stEmpty recNoDsn).2 (by decide) (by decide)).2.1⟩

/-! ## C3, C10 — the restart monitor's watch table -/

/-- Entries of `aupdate` satisfy `P` when the old entries do and `f`
always produces a `P` value. -/
theorem forall_mem_aupdate {α : Type} (k : String) (f : α → α) (l : List (String × α))
    (P : α → Prop) (h : ∀ p ∈ l, P p.2) (hf : ∀ v, P (f v)) :
    ∀ p ∈ aupdate k f l, P p.2 := by
  induction l with
  | nil => simp [aupdate]
  | cons q rest ih =>
    obtain ⟨a, b⟩ := q
    by_cases hak : a = k
    · rw [aupdate_cons, if_pos hak]
      intro p hp
      rcases List.mem_cons.mp hp with hp | hp
      · rw [hp]
        exact hf b
      · exact h p (List.mem_cons_of_mem _ hp)
    · rw [aupdate_cons, if_neg hak]
      intro p hp
      rcases List.mem_cons.mp hp with hp | hp
      · rw [hp]
        exact h (a, b) (List.mem_cons_self _ _)
      · exact ih (fun q hq => h q (List.mem_cons_of_mem _ hq)) p hp

/-- A successful lookup is a member of the list. -/
theorem alookup_mem {α : Type} (k : String) (l : List (String × α)) (v : α)
    (h : alookup k l = some v) : (k, v) ∈ l := by
  induction l with
  | nil => simp [alookup] at h
  | cons q rest ih =>
    obtain ⟨a, b⟩ := q
    by_cases hak : a = k
    · subst hak
      rw [alookup_cons, if_pos rfl] at h
      rw [← Option.some.inj h]
      exact List.mem_cons_self _ _
    · rw [alookup_cons, if_neg hak] at h
      exact List.mem_cons_of_mem _ (ih h)

/-- Entries of `aerase` are entries of the original list. -/
theorem mem_of_mem_aerase {α : Type} (k : String) (l : List (String × α))
    (p : String × α) (h : p ∈ aerase k l) : p ∈ l := by
  induction l with
  | nil => simp [aerase] at h
  | cons q rest ih =>
    obtain ⟨a, b⟩ := q
    by_cases hak : a = k
    · rw [aerase_cons, if_pos hak] at h
      exact List.mem_cons_of_mem _ h
    · rw [aerase_cons, if_neg hak] at h
      rcases List.mem_cons.mp h with h | h
      · exact h ▸ List.mem_cons_self _ _
      · exact List.mem_cons_of_mem _ (ih h)

/-- The watch-table invariant the reachable monitor states maintain: keys
are unique and every watched target has a non-empty subscriber set. -/
def MonitorInv (m : MonitorState) : Prop :=
  (m.mysqlInstances.map Prod.fst).Nodup ∧ ∀ p ∈ m.mysqlInstances, p.2.subs ≠ []

/-- Unfolding of `Monitor.Remove` on an unwatched DSN. -/
theorem Monitor.Remove_eq_none (m : MonitorState) (dsn : String) (c : Nat)
    (hl : alookup dsn m.mysqlInstances = none) :
    Monitor.Remove m dsn c = m := by
  unfold Monitor.Remove
  rw [hl]

/-- Unfolding of `Monitor.Remove` on a watched DSN. -/
theorem Monitor.Remove_eq_some (m : MonitorState) (dsn : String) (c : Nat)
    (mi : MysqlInstance) (hl : alookup dsn m.mysqlInstances = some mi) :
    Monitor.Remove m dsn c =
      if mi.subs.filter (fun x => x ≠ c) = [] then
        { m with mysqlInstances := aerase dsn m.mysqlInstances }
      else
        { m with mysqlInstances :=
          (aupdate dsn (fun i => { i with subs := (mi.subs.filter (fun x => x ≠ c)) })
            m.mysqlInstances) } := by
  unfold Monitor.Remove
  rw [hl]

/-- Unfolding of `Monitor.Add` on an already-watched DSN. -/
theorem Monitor.Add_eq_watched (m : MonitorState) (dsn : String)
    (baseline : String → Option Nat) (mi : MysqlInstance)
    (hl : alookup dsn m.mysqlInstances = some mi) :
    Monitor.Add m dsn baseline =
      (⟨aupdate dsn (fun i => { i with subs := i.subs ++ [m.nextChan] }) m.mysqlInstances,
        m.nextChan + 1⟩, some m.nextChan) := by
  unfold Monitor.Add
  rw [hl]

/-- Unfolding of `Monitor.Add` on a new DSN whose baseline read fails. -/
theorem Monitor.Add_eq_fail (m : MonitorState) (dsn : String)
    (baseline : String → Option Nat)
    (hl : alookup dsn m.mysqlInstances = none) (hb : baseline dsn = none) :
    Monitor.Add m dsn baseline = (m, none) := by
  unfold Monitor.Add
  rw [hl, hb]

/-- Unfolding of `Monitor.Add` on a new DSN with a baseline fingerprint. -/
theorem Monitor.Add_eq_new (m : MonitorState) (dsn : String)
    (baseline : String → Option Nat) (f : Nat)
    (hl : alookup dsn m.mysqlInstances = none) (hb : baseline dsn = some f) :
    Monitor.Add m dsn baseline =
      (⟨(dsn, ⟨[m.nextChan], f⟩) :: m.mysqlInstances, m.nextChan + 1⟩,
       some m.nextChan) := by
  unfold Monitor.Add
  rw [hl, hb]

/-- Every reachable monitor state satisfies the invariant. -/
theorem monitorReachable_inv (m : MonitorState) (h : MonitorReachable m) :
    MonitorInv m := by
  induction h with
  | init => exact ⟨List.nodup_nil, by simp [Monitor.init]⟩
  | add m dsn baseline _ ih =>
    obtain ⟨hnd, hne⟩ := ih
    cases hl : alookup dsn m.mysqlInstances with
    | some mi =>
      rw [Monitor.Add_eq_watched m dsn baseline mi hl]
      refine ⟨?_, ?_⟩
      · simpa [keys_aupdate] using hnd
      · exact forall_mem_aupdate dsn _ m.mysqlInstances (fun v => v.subs ≠ [])
          hne (fun v => by simp)
    | none =>
      cases hb : baseline dsn with
      | none =>
        rw [Monitor.Add_eq_fail m dsn baseline hl hb]
        exact ⟨hnd, hne⟩
      | some f =>
        rw [Monitor.Add_eq_new m dsn baseline f hl hb]
        refine ⟨?_, ?_⟩
        · refine List.Nodup.cons ?_ hnd
          intro hmem
          have hs := alookup_isSome_of_mem_keys dsn m.mysqlInstances hmem
          rw [hl] at hs
          simp at hs
        · intro p hp
          rcases List.mem_cons.mp hp with hp | hp
          · rw [hp]
            simp
          · exact hne p hp
  | remove m dsn c _ ih =>
    obtain ⟨hnd, hne⟩ := ih
    cases hl : alookup dsn m.mysqlInstances with
    | none =>
      rw [Monitor.Remove_eq_none m dsn c hl]
      exact ⟨hnd, hne⟩
    | some mi =>
      rw [Monitor.Remove_eq_some m dsn c mi hl]
      by_cases hempty : mi.subs.filter (fun x => x ≠ c) = []
      · rw [if_pos hempty]
        refine ⟨(keys_aerase_sublist dsn m.mysqlInstances).nodup hnd, ?_⟩
        intro p hp
        exact hne p (mem_of_mem_aerase dsn m.mysqlInstances p hp)
      · rw [if_neg hempty]
        refine ⟨by simpa [keys_aupdate] using hnd, ?_⟩
        exact forall_mem_aupdate dsn _ m.mysqlInstances (fun v => v.subs ≠ [])
          hne (fun v => hempty)

/-- C3: in every monitor state reachable from the empty watch table by
Add and Remove, every watched target has a non-empty subscriber set; the
poll tick checks a target if and only if it is in the watch table; and
removing a target's last remaining subscription deletes the target — its
fingerprint state included, since the fingerprint lives in the deleted
entry. -/
theorem c3_monitor_watch_invariant (m : MonitorState) (h : MonitorReachable m) :
    (∀ p ∈ m.mysqlInstances, p.2.subs ≠ []) ∧
    (∀ (current : String → Option Nat) (dsn : String),
      dsn ∈ (Monitor.Check m current).2 ↔ (alookup dsn m.mysqlInstances).isSome) ∧
    (∀ (dsn : String) (c : Nat) (mi : MysqlInstance),
      alookup dsn m.mysqlInstances = some mi → mi.subs = [c] →
      alookup dsn (Monitor.Remove m dsn c).mysqlInstances = none) := by
  obtain ⟨hnd, hne⟩ := monitorReachable_inv m h
  refine ⟨hne, ?_, ?_⟩
  · intro current dsn
    unfold Monitor.Check
    constructor
    · intro hmem
      exact alookup_isSome_of_mem_keys dsn m.mysqlInstances hmem
    · intro hsome
      obtain ⟨v, hv⟩ := Option.isSome_iff_exists.mp hsome
      exact mem_keys_of_alookup dsn m.mysqlInstances v hv
  · intro dsn c mi hl hsubs
    have hempty : mi.subs.filter (fun x => x ≠ c) = [] := by
      rw [hsubs]
      simp
    rw [Monitor.Remove_eq_some m dsn c mi hl, if_pos hempty]
    exact alookup_aerase_self dsn m.mysqlInstances hnd

/-- The monitor state holding one target `"d1"` with the single
subscriber channel `0` and fingerprint `7`. -/
def m1 : MonitorState := (Monitor.Add Monitor.init "d1" (fun _ => some 7)).1

/-- C3 witness: at the reachable state `m1`, a target is checked iff
watched, and removing the last subscription of `"d1"` drops the entry. -/
theorem c3_witness :
    ("d1" ∈ (Monitor.Check m1 (fun _ => some 9)).2 ↔
      (alookup "d1" m1.mysqlInstances).isSome) ∧
    alookup "d1" (Monitor.Remove m1 "d1" 0).mysqlInstances = none := by
  have h := c3_monitor_watch_invariant m1
    (MonitorReachable.add Monitor.init "d1" (fun _ => some 7) MonitorReachable.init)
  exact ⟨h.2.1 (fun _ => some 9) "d1", h.2.2 "d1" 0 ⟨[0], 7⟩ (by decide) (by decide)⟩

/-- C10: `Remove` on an unwatched target is a no-op; `Remove` of a
channel that is not in the (non-empty, per the invariant) subscriber set
of a watched target is a no-op; and every `Remove` leaves the entries of
all other targets exactly as they were. -/
theorem c10_remove_frame (m : MonitorState) (dsn : String) (c : Nat) :
    (alookup dsn m.mysqlInstances = none → Monitor.Remove m dsn c = m) ∧
    (∀ mi : MysqlInstance, (∀ p ∈ m.mysqlInstances, p.2.subs ≠ []) →
      alookup dsn m.mysqlInstances = some mi → c ∉ mi.subs →
      Monitor.Remove m dsn c = m) ∧
    (∀ dsn' : String, dsn' ≠ dsn →
      alookup dsn' (Monitor.Remove m dsn c).mysqlInstances =
        alookup dsn' m.mysqlInstances) := by
  refine ⟨?_, ?_, ?_⟩
  · intro hl
    exact Monitor.Remove_eq_none m dsn c hl
  · intro mi hne hl hc
    have hfilter : mi.subs.filter (fun x => x ≠ c) = mi.subs := by
      apply List.filter_eq_self.mpr
      intro a ha
      exact decide_eq_true (fun hac : a = c => hc (hac ▸ ha))
    have hnonempty : mi.subs ≠ [] :=
      hne (dsn, mi) (alookup_mem dsn m.mysqlInstances mi hl)
    rw [Monitor.Remove_eq_some m dsn c mi hl, hfilter, if_neg hnonempty,
      aupdate_eq_self dsn (fun i => { i with subs := mi.subs }) mi
        m.mysqlInstances hl rfl]
  · intro dsn' hne'
    cases hl : alookup dsn m.mysqlInstances with
    | none =>
      rw [Monitor.Remove_eq_none m dsn c hl]
    | some mi =>
      rw [Monitor.Remove_eq_some m dsn c mi hl]
      by_cases hempty : mi.subs.filter (fun x => x ≠ c) = []
      · rw [if_pos hempty]
        exact alookup_aerase_ne dsn dsn' m.mysqlInstances hne'
      · rw [if_neg hempty]
        exact alookup_aupdate_ne dsn dsn' _ m.mysqlInstances hne'

/-- C10 witness: at the concrete state `m1`, removing an unwatched target
and removing an unknown channel are both no-ops, and the frame condition
holds for another target. -/
theorem c10_witness :
    Monitor.Remove m1 "other" 3 = m1 ∧
    Monitor.Remove m1 "d1" 5 = m1 ∧
    alookup "x" (Monitor.Remove m1 "d1" 0).mysqlInstances =
      alookup "x" m1.mysqlInstances := by
  have h := c10_remove_frame m1 "d1" 0
  have h2 := c10_remove_frame m1 "other" 3
  refine ⟨h2.1 (by decide), ?_, (c10_remove_frame m1 "d1" 0).2.2 "x" (by decide)⟩
  exact (c10_remove_frame m1 "d1" 5).2.1 ⟨[0], 7⟩ (by decide) (by decide) (by decide)

end PerconaAgent
